import Mathlib

/-! TorLauncherFactory: lifecycle controller and control-event handling; the
SKU response checkers and order creation flow of the ledger.

A shallow embedding of `browser/tor/tor_launcher_factory.cc`, and of
`response_sku.cc` and `sku_order.cc` of `bat-native-ledger`.

* `std::string` is a `List Char`; `size_t` is a `Nat` below `2 ^ 64`, with
  wrap-around made explicit wherever the source adds or subtracts.
* The member functions are state transformers on `TorLauncherFactory`; the
  calls they make on their collaborators (`control_`, `tor_launcher_`, the
  observers) are returned as a list of `Call`s, in program order.
* A member function that can throw (`std::string::substr` past the end)
  returns an `Option`; `none` is the uncaught `std::out_of_range`.
* `LOG`/`VLOG`/`DCHECK_CURRENTLY_ON` lines have no effect on the members and
  are left out.
-/

set_option autoImplicit false
set_option linter.unusedVariables false

namespace Tor

/-! ## Collaborators declared outside this translation unit -/

/-- The two members of `tor::TorConfig` the launcher factory uses. The class is
declared in a header that is not part of the sources at hand, so its
interface is a parameter of the embedding. -/
structure TorConfigOps (Cfg : Type) where
  /-- `TorConfig::empty()` -/
  empty : Cfg → Bool
  /-- `TorConfig::tor_watch_path()` -/
  tor_watch_path : Cfg → List Char

/-- The event classes of `tor::TorControlEvent` named in the launcher factory;
the remaining enumerators of the enum are `OTHER`. -/
inductive TorControlEvent where
  | NETWORK_LIVENESS
  | STATUS_CLIENT
  | STATUS_GENERAL
  | STREAM
  | OTHER (code : Nat)
  deriving DecidableEq, Repr

/-- What an observer (`tor::TorProfileServiceImpl`) can be told. -/
inductive Notification where
  | NotifyTorLauncherCrashed
  | NotifyTorCrashed (pid : Int)
  | NotifyTorLaunched (result : Bool) (pid : Int)
  | NotifyTorInitializing (percentage : List Char)
  | NotifyTorCircuitEstablished (result : Bool)
  | NotifyTorNewProxyURI (uri : List Char)
  deriving DecidableEq, Repr

/-- A call made by the factory on one of its collaborators. -/
inductive Call (Cfg : Type) where
  /-- `GetConnector()->Connect(kServiceName, tor_launcher_.BindNewPipeAndPassReceiver())` -/
  | Connect
  /-- `tor_launcher_.set_disconnect_handler(OnTorLauncherCrashed)` -/
  | set_disconnect_handler
  /-- `tor_launcher_->SetCrashHandler(OnTorCrashed)` -/
  | SetCrashHandler
  /-- `control_->Start(watch_path, OnTorControlCheckComplete)` -/
  | control_Start (watch_path : List Char)
  /-- `control_->Stop()` -/
  | control_Stop
  /-- `tor_launcher_.reset()` -/
  | tor_launcher_reset
  /-- `tor_launcher_->Launch(config_, OnTorLaunched)` -/
  | tor_launcher_Launch (config : Cfg)
  /-- `observer.Notify...(...)` on the observer with the given identity -/
  | notify (observer : Nat) (n : Notification)
  deriving DecidableEq, Repr

/-- Is the call a request for the control/launch sequence (`control_->Start`)? -/
def Call.isControlStart {Cfg : Type} : Call Cfg → Bool
  | .control_Start _ => true
  | _ => false

/-- Is the call a notification of an observer? -/
def Call.isNotify {Cfg : Type} : Call Cfg → Bool
  | .notify _ _ => true
  | _ => false

/-! ## The members of `TorLauncherFactory` -/

/-- The data members of `TorLauncherFactory`. `tor_launcher_` records whether
the remote is bound (`!tor_launcher_` in the source is `tor_launcher_ = false`
here); `observers_` lists the identities of the registered observers in
registration order. -/
structure TorLauncherFactory (Cfg : Type) where
  is_starting_ : Bool
  tor_pid_ : Int
  config_ : Cfg
  tor_launcher_ : Bool
  observers_ : List Nat
  deriving DecidableEq, Repr

variable {Cfg : Type}

/-- The calls of `for (auto& observer : observers_) observer.Notify...`. -/
def notifyAll (observers : List Nat) (n : Notification) : List (Call Cfg) :=
  observers.map fun o => Call.notify o n

/-- `TorLauncherFactory::Init` (lines 44-56). -/
def Init (s : TorLauncherFactory Cfg) : TorLauncherFactory Cfg × List (Call Cfg) :=
  ({ s with tor_launcher_ := true },
   [Call.Connect, Call.set_disconnect_handler, Call.SetCrashHandler])

/-- The constructor (lines 29-42); `config` is the default-constructed
`tor::TorConfig`. -/
def create (g_prevent_tor_launch_for_tests : Bool) (config : Cfg) :
    TorLauncherFactory Cfg × List (Call Cfg) :=
  let s : TorLauncherFactory Cfg :=
    { is_starting_ := false, tor_pid_ := -1, config_ := config,
      tor_launcher_ := false, observers_ := [] }
  if g_prevent_tor_launch_for_tests then
    ({ s with tor_pid_ := 1234 }, [])
  else
    Init s

/-- `TorLauncherFactory::SetConfig` (lines 60-65). -/
def SetConfig (ops : TorConfigOps Cfg) (s : TorLauncherFactory Cfg) (config : Cfg) :
    Bool × TorLauncherFactory Cfg :=
  if ops.empty config then
    (false, s)
  else
    (true, { s with config_ := config })

/-- `TorLauncherFactory::LaunchTorProcess` (lines 67-101). The file-level flag
`g_prevent_tor_launch_for_tests` is read, never written, by the function. -/
def LaunchTorProcess (ops : TorConfigOps Cfg) (g_prevent_tor_launch_for_tests : Bool)
    (s : TorLauncherFactory Cfg) (config : Cfg) :
    TorLauncherFactory Cfg × List (Call Cfg) :=
  if g_prevent_tor_launch_for_tests then
    (s, [])
  else if s.is_starting_ then
    (s, [])
  else
    let s1 := { s with is_starting_ := true }
    if s1.tor_pid_ ≥ 0 then
      (s1, [])
    else
      let r := SetConfig ops s1 config
      if !r.1 then
        (r.2, [])
      else
        let i := if !r.2.tor_launcher_ then Init r.2 else (r.2, [])
        (i.1, i.2 ++ [Call.control_Start (ops.tor_watch_path i.1.config_)])

/-- `TorLauncherFactory::OnTorControlCheckComplete` (lines 103-108). -/
def OnTorControlCheckComplete (s : TorLauncherFactory Cfg) :
    TorLauncherFactory Cfg × List (Call Cfg) :=
  (s, [Call.tor_launcher_Launch s.config_])

/-- `TorLauncherFactory::KillTorProcess` (lines 110-114). -/
def KillTorProcess (s : TorLauncherFactory Cfg) :
    TorLauncherFactory Cfg × List (Call Cfg) :=
  ({ s with tor_launcher_ := false, tor_pid_ := -1 },
   [Call.control_Stop, Call.tor_launcher_reset])

/-- `TorLauncherFactory::AddObserver` (lines 116-118): `base::ObserverList`
keeps the observers in registration order and holds each of them once. -/
def AddObserver (s : TorLauncherFactory Cfg) (service : Nat) : TorLauncherFactory Cfg :=
  if service ∈ s.observers_ then s
  else { s with observers_ := s.observers_ ++ [service] }

/-- `TorLauncherFactory::RemoveObserver` (lines 120-122). -/
def RemoveObserver (s : TorLauncherFactory Cfg) (service : Nat) : TorLauncherFactory Cfg :=
  { s with observers_ := s.observers_.erase service }

/-- `TorLauncherFactory::OnTorLauncherCrashed` (lines 124-129). -/
def OnTorLauncherCrashed (s : TorLauncherFactory Cfg) :
    TorLauncherFactory Cfg × List (Call Cfg) :=
  ({ s with is_starting_ := false },
   notifyAll s.observers_ Notification.NotifyTorLauncherCrashed)

/-- `TorLauncherFactory::OnTorCrashed` (lines 131-136). -/
def OnTorCrashed (s : TorLauncherFactory Cfg) (pid : Int) :
    TorLauncherFactory Cfg × List (Call Cfg) :=
  ({ s with is_starting_ := false },
   notifyAll s.observers_ (Notification.NotifyTorCrashed pid))

/-- `TorLauncherFactory::OnTorLaunched` (lines 138-147). -/
def OnTorLaunched (s : TorLauncherFactory Cfg) (result : Bool) (pid : Int) :
    TorLauncherFactory Cfg × List (Call Cfg) :=
  let s1 := if result then { s with is_starting_ := false, tor_pid_ := pid } else s
  (s1, notifyAll s1.observers_ (Notification.NotifyTorLaunched result pid))

/-- The constructor of `ScopedTorLaunchPreventerForTest` (lines 273-275): the
value of `g_prevent_tor_launch_for_tests` once it has run, whatever it was. -/
def ScopedTorLaunchPreventerForTest.enter (g_prevent_tor_launch_for_tests : Bool) : Bool :=
  true

/-- The destructor of `ScopedTorLaunchPreventerForTest` (lines 277-279). -/
def ScopedTorLaunchPreventerForTest.leave (g_prevent_tor_launch_for_tests : Bool) : Bool :=
  false

/-! ## `std::string` and `size_t` -/

/-- `std::string::npos`, the largest `size_t`. -/
def npos : Nat := 2 ^ 64 - 1

/-- Addition of `size_t`. -/
def size_add (a b : Nat) : Nat := (a + b) % 2 ^ 64

/-- Subtraction of `size_t`. -/
def size_sub (a b : Nat) : Nat := (a + 2 ^ 64 - b % 2 ^ 64) % 2 ^ 64

/-- The lowest position at which `pat` occurs in `s`, if there is one. -/
def findFirst (pat : List Char) : List Char → Option Nat
  | [] => if pat.isEmpty then some 0 else none
  | c :: cs =>
    if pat.isPrefixOf (c :: cs) then some 0
    else (findFirst pat cs).map (· + 1)

/-- `s.find(pat)`: the lowest position at which `pat` occurs, `npos` if none. -/
def find (s pat : List Char) : Nat :=
  (findFirst pat s).getD npos

/-- `s.substr(pos, n)`: throws `std::out_of_range` (`none`) when
`pos > s.size()`, otherwise the `min(n, size - pos)` characters from `pos`. -/
def substr (s : List Char) (pos : Nat) (n : Nat) : Option (List Char) :=
  if pos > s.length then none else some ((s.drop pos).take n)

/-- `strlen` of a literal without embedded NUL. -/
def strlen (s : List Char) : Nat := s.length

/-- `TorLauncherFactory::OnTorEvent` (lines 222-248); `extra` is not read by
the function and the members are not written, so the result is the list of
calls, or `none` when `substr` throws. -/
def OnTorEvent (s : TorLauncherFactory Cfg) (event : TorControlEvent)
    (initial : List Char) : Option (List (Call Cfg)) :=
  if event = TorControlEvent.STATUS_CLIENT then
    if find initial "BOOTSTRAP".toList ≠ npos then
      let pfx := "PROGRESS=".toList
      let progress_start := find initial pfx
      match substr initial progress_start npos with
      | none => none
      | some tail =>
        let progress_length := find tail " ".toList
        match substr initial (size_add progress_start (strlen pfx))
            (size_sub progress_length (strlen pfx)) with
        | none => none
        | some percentage =>
          some (notifyAll s.observers_ (Notification.NotifyTorInitializing percentage))
    else if find initial "CIRCUIT_ESTABLISHED".toList ≠ npos then
      some (notifyAll s.observers_ (Notification.NotifyTorCircuitEstablished true))
    else if find initial "CIRCUIT_NOT_ESTABLISHED".toList ≠ npos then
      some (notifyAll s.observers_ (Notification.NotifyTorCircuitEstablished false))
    else
      some []
  else
    some []

/-- `kTorProxyScheme` (line 20). -/
def kTorProxyScheme : List Char := "socks5://".toList

/-- The double-quote character (code 34) that line 193 removes. -/
def kQuote : Char := Char.ofNat 34

/-- `s.erase(std::remove(s.begin(), s.end(), c), s.end())`: `s` without its
occurrences of `c`, the other characters in their order. -/
def erase_remove (s : List Char) (c : Char) : List Char :=
  s.filter fun x => x != c

/-- `TorLauncherFactory::GotSOCKSListeners` (lines 179-197). The members are
not written, so the result is the list of calls; `listeners[0]` is read
whether or not the vector has an element, and on an empty vector that read is
outside the vector: `none`. -/
def GotSOCKSListeners (s : TorLauncherFactory Cfg) (error : Bool)
    (listeners : List (List Char)) : Option (List (Call Cfg)) :=
  if error then
    some []
  else
    match listeners[0]? with
    | none => none
    | some first =>
      let tor_proxy_uri := erase_remove (kTorProxyScheme ++ first) kQuote
      some (notifyAll s.observers_ (Notification.NotifyTorNewProxyURI tor_proxy_uri))

/-! ## A concrete configuration type for the examples -/

/-- A configuration that is just its watch path, empty when the path is. -/
def pathOps : TorConfigOps (List Char) where
  empty := fun c => c.isEmpty
  tor_watch_path := fun c => c

/-- A non-empty configuration. -/
def sampleConfig : List Char := "/tor/watch".toList

/-- The factory as constructed in production, with observers 1 and 2
registered: Idle, launcher bound by `Init`. -/
def idleSample : TorLauncherFactory (List Char) :=
  AddObserver (AddObserver (create false []).1 1) 2

/-- The factory after an accepted `LaunchTorProcess`: Starting. -/
def startingSample : TorLauncherFactory (List Char) :=
  (LaunchTorProcess pathOps false idleSample sampleConfig).1

/-- The factory after a successful launch with pid 4321: Running. -/
def runningSample : TorLauncherFactory (List Char) :=
  (OnTorLaunched startingSample true 4321).1

end Tor

/-! ## The SKU endpoints of the ledger -/

namespace net

/-- `net::HTTP_OK` -/
def HTTP_OK : Int := 200

/-- `net::HTTP_CREATED` -/
def HTTP_CREATED : Int := 201

/-- `net::HTTP_BAD_REQUEST` -/
def HTTP_BAD_REQUEST : Int := 400

/-- `net::HTTP_NOT_FOUND` -/
def HTTP_NOT_FOUND : Int := 404

/-- `net::HTTP_CONFLICT` -/
def HTTP_CONFLICT : Int := 409

/-- `net::HTTP_INTERNAL_SERVER_ERROR` -/
def HTTP_INTERNAL_SERVER_ERROR : Int := 500

end net

namespace ledger

/-- The enumerators of `ledger::Result` named in the SKU sources; the remaining
enumerators of the enum are `OTHER`. -/
inductive Result where
  | LEDGER_OK
  | LEDGER_ERROR
  | NOT_FOUND
  | OTHER (code : Nat)
  deriving DecidableEq, Repr

/-- The members of `ledger::UrlResponse` the response checkers can see; they
read `status_code` only. -/
structure UrlResponse where
  status_code : Int
  body : List Char
  deriving DecidableEq, Repr

/-- The member of `ledger::SKUOrder` read by the order flow. -/
structure SKUOrder where
  order_id : List Char
  deriving DecidableEq, Repr

end ledger

namespace braveledger_response_util

open ledger

/-- `CheckSendExternalTransaction` (lines 37-69). -/
def CheckSendExternalTransaction (response : UrlResponse) : Result :=
  if response.status_code = net.HTTP_BAD_REQUEST then Result.LEDGER_ERROR
  else if response.status_code = net.HTTP_NOT_FOUND then Result.NOT_FOUND
  else if response.status_code = net.HTTP_CONFLICT then Result.LEDGER_ERROR
  else if response.status_code = net.HTTP_INTERNAL_SERVER_ERROR then Result.LEDGER_ERROR
  else if response.status_code ≠ net.HTTP_CREATED then Result.LEDGER_ERROR
  else Result.LEDGER_OK

/-- `CheckClaimSKUCreds` (lines 81-105). -/
def CheckClaimSKUCreds (response : UrlResponse) : Result :=
  if response.status_code = net.HTTP_BAD_REQUEST then Result.LEDGER_ERROR
  else if response.status_code = net.HTTP_CONFLICT then Result.LEDGER_ERROR
  else if response.status_code = net.HTTP_INTERNAL_SERVER_ERROR then Result.LEDGER_ERROR
  else if response.status_code ≠ net.HTTP_OK then Result.LEDGER_ERROR
  else Result.LEDGER_OK

/-- `CheckRedeemSKUTokens` (lines 116-134). -/
def CheckRedeemSKUTokens (response : UrlResponse) : Result :=
  if response.status_code = net.HTTP_BAD_REQUEST then Result.LEDGER_ERROR
  else if response.status_code = net.HTTP_INTERNAL_SERVER_ERROR then Result.LEDGER_ERROR
  else if response.status_code ≠ net.HTTP_OK then Result.LEDGER_ERROR
  else Result.LEDGER_OK

end braveledger_response_util

namespace braveledger_sku

open ledger

/-- What a member function of `braveledger_sku::SKUOrder` does to its
surroundings; `Item` stands for `ledger::SKUOrderItem`. -/
inductive Action (Item : Type) where
  /-- `callback(result, order_id)`, the caller's `ledger::SKUOrderCallback` -/
  | callback (result : Result) (order_id : List Char)
  /-- `payment_server_->post_order()->Request(items, url_callback)`, where
  `url_callback` is `OnCreate` with the caller's callback bound -/
  | post_order_Request (items : List Item)
  /-- `ledger_->database()->SaveSKUOrder(order->Clone(), save_callback)`, where
  `save_callback` is `OnCreateSave` with `order_id` and the caller's callback
  bound -/
  | SaveSKUOrder (order : SKUOrder) (order_id : List Char)
  deriving DecidableEq, Repr

/-- Is the action a request to the payment server? -/
def Action.isRequest {Item : Type} : Action Item → Bool
  | .post_order_Request _ => true
  | _ => false

/-- `SKUOrder::Create` (lines 30-46). -/
def Create {Item : Type} (items : List Item) : List (Action Item) :=
  if items.isEmpty then
    [Action.callback Result.LEDGER_ERROR []]
  else
    [Action.post_order_Request items]

/-- `SKUOrder::OnCreate` (lines 48-65); `order` is a `ledger::SKUOrderPtr`,
`none` when null, and `order->order_id` on a null pointer is `none`. -/
def OnCreate {Item : Type} (result : Result) (order : Option SKUOrder) :
    Option (List (Action Item)) :=
  if result ≠ Result.LEDGER_OK then
    some [Action.callback Result.LEDGER_ERROR []]
  else
    match order with
    | none => none
    | some o => some [Action.SaveSKUOrder o o.order_id]

/-- `SKUOrder::OnCreateSave` (lines 67-78). -/
def OnCreateSave {Item : Type} (result : Result) (order_id : List Char) :
    List (Action Item) :=
  if result ≠ Result.LEDGER_OK then
    [Action.callback result []]
  else
    [Action.callback Result.LEDGER_OK order_id]

end braveledger_sku

namespace Tor

variable {Cfg : Type}

/-! ## The lifecycle controller -/

/-- A crash signal, from the launcher or from the tor process, leaves the
members as they were except for `is_starting_`, which it clears. -/
theorem OnTorCrashed_state (s : TorLauncherFactory Cfg) (pid : Int) :
    (OnTorCrashed s pid).1 = { s with is_starting_ := false } ∧
    (OnTorLauncherCrashed s).1 = { s with is_starting_ := false } :=
  ⟨rfl, rfl⟩

/-- An accepted `LaunchTorProcess`: not prevented, not starting, no pid, and a
non-empty config. The config is stored, `is_starting_` is set, the launcher is
bound, and `control_->Start` is the last and only launch request. -/
theorem LaunchTorProcess_accepted (ops : TorConfigOps Cfg) (s : TorLauncherFactory Cfg)
    (config : Cfg) (hs : s.is_starting_ = false) (hpid : s.tor_pid_ < 0)
    (hc : ops.empty config = false) :
    (LaunchTorProcess ops false s config).1 =
      { s with is_starting_ := true, config_ := config, tor_launcher_ := true } ∧
    (LaunchTorProcess ops false s config).2.countP Call.isControlStart = 1 := by
  have hpid' : ¬ (0 ≤ s.tor_pid_) := by omega
  cases hl : s.tor_launcher_ <;>
    simp [LaunchTorProcess, SetConfig, Init, hs, hpid', hc, hl, Call.isControlStart,
      List.countP_cons]

/-- C1: starting from the idle state (`is_starting_ = false`, `tor_pid_ = -1`,
launch prevention off), two consecutive `LaunchTorProcess` calls with non-empty
configs request `control_->Start` exactly once, the first call makes the one
Starting transition, and the second call makes no call and changes no member:
`is_starting_` stays true, `tor_pid_` stays -1 and `config_` stays the first
call's config. -/
theorem LaunchTorProcess_twice_starts_once (ops : TorConfigOps Cfg)
    (s : TorLauncherFactory Cfg) (c1 c2 : Cfg)
    (hs : s.is_starting_ = false) (hpid : s.tor_pid_ = -1)
    (h1 : ops.empty c1 = false) (h2 : ops.empty c2 = false) :
    ((LaunchTorProcess ops false s c1).2 ++
      (LaunchTorProcess ops false (LaunchTorProcess ops false s c1).1 c2).2).countP
        Call.isControlStart = 1 ∧
    (LaunchTorProcess ops false s c1).1.is_starting_ = true ∧
    (LaunchTorProcess ops false (LaunchTorProcess ops false s c1).1 c2).2 = [] ∧
    (LaunchTorProcess ops false (LaunchTorProcess ops false s c1).1 c2).1 =
      (LaunchTorProcess ops false s c1).1 ∧
    (LaunchTorProcess ops false (LaunchTorProcess ops false s c1).1 c2).1.is_starting_ = true ∧
    (LaunchTorProcess ops false (LaunchTorProcess ops false s c1).1 c2).1.tor_pid_ = -1 ∧
    (LaunchTorProcess ops false (LaunchTorProcess ops false s c1).1 c2).1.config_ = c1 := by
  obtain ⟨hst, hcnt⟩ := LaunchTorProcess_accepted ops s c1 hs (by omega) h1
  have hsnd : LaunchTorProcess ops false (LaunchTorProcess ops false s c1).1 c2 =
      ((LaunchTorProcess ops false s c1).1, []) := by
    rw [hst]; simp [LaunchTorProcess]
  rw [hsnd]
  refine ⟨by simpa using hcnt, ?_, rfl, rfl, ?_, ?_, ?_⟩ <;> simp [hst, hpid]

/-- The statement of C1 at the factory as constructed, with two different
non-empty configs. -/
theorem LaunchTorProcess_twice_starts_once_witness :
    (idleSample.is_starting_ = false ∧ idleSample.tor_pid_ = -1 ∧
      pathOps.empty sampleConfig = false ∧ pathOps.empty ['x'] = false) ∧
    (LaunchTorProcess pathOps false
      (LaunchTorProcess pathOps false idleSample sampleConfig).1 ['x']).1.config_
        = sampleConfig :=
  ⟨by decide,
   (LaunchTorProcess_twice_starts_once pathOps idleSample sampleConfig ['x']
      (by decide) (by decide) (by decide) (by decide)).2.2.2.2.2.2⟩

/-- C2 (the code at a rejected call): `LaunchTorProcess` on the Running factory
(`is_starting_ = false`, `tor_pid_ = 4321`) is rejected, no call is made and
`tor_pid_` and `config_` are kept, but `is_starting_` has become true; the same
happens on the Idle factory with an empty config. -/
theorem LaunchTorProcess_rejected_sets_is_starting :
    (runningSample.is_starting_ = false ∧ runningSample.tor_pid_ = 4321 ∧
      (LaunchTorProcess pathOps false runningSample sampleConfig).2 = [] ∧
      (LaunchTorProcess pathOps false runningSample sampleConfig).1 =
        { runningSample with is_starting_ := true }) ∧
    (idleSample.is_starting_ = false ∧ idleSample.tor_pid_ = -1 ∧
      pathOps.empty [] = true ∧
      (LaunchTorProcess pathOps false idleSample []).2 = [] ∧
      (LaunchTorProcess pathOps false idleSample []).1 =
        { idleSample with is_starting_ := true }) := by
  decide

/-- C3: for every state of the factory and either value of the prevention flag,
`LaunchTorProcess` with an empty config makes no call (so requests no launch)
and leaves `tor_pid_` and `config_` as they were; `SetConfig` returns false on
an empty config without touching the members, and returns true and stores the
config otherwise. -/
theorem LaunchTorProcess_empty_config (ops : TorConfigOps Cfg) (g : Bool)
    (s : TorLauncherFactory Cfg) (config : Cfg) (hempty : ops.empty config = true) :
    (LaunchTorProcess ops g s config).2 = [] ∧
    (LaunchTorProcess ops g s config).1.tor_pid_ = s.tor_pid_ ∧
    (LaunchTorProcess ops g s config).1.config_ = s.config_ ∧
    SetConfig ops s config = (false, s) ∧
    ∀ c : Cfg, ops.empty c = false → SetConfig ops s c = (true, { s with config_ := c }) := by
  refine ⟨?_, ?_, ?_, by simp [SetConfig, hempty], fun c hc => by simp [SetConfig, hc]⟩ <;>
    cases g <;> cases hst : s.is_starting_ <;>
      by_cases hp : 0 ≤ s.tor_pid_ <;>
        simp [LaunchTorProcess, SetConfig, hempty, hst, hp]

/-- The statement of C3 at the factory as constructed, with the empty path. -/
theorem LaunchTorProcess_empty_config_witness :
    pathOps.empty [] = true ∧
    (LaunchTorProcess pathOps false idleSample []).2 = [] ∧
    (LaunchTorProcess pathOps false idleSample []).1.tor_pid_ = idleSample.tor_pid_ ∧
    (LaunchTorProcess pathOps false idleSample []).1.config_ = idleSample.config_ :=
  ⟨by decide,
   (LaunchTorProcess_empty_config pathOps false idleSample [] (by decide)).1,
   (LaunchTorProcess_empty_config pathOps false idleSample [] (by decide)).2.1,
   (LaunchTorProcess_empty_config pathOps false idleSample [] (by decide)).2.2.1⟩

/-- C4 as stated fails when `g_prevent_tor_launch_for_tests` is set: the
factory is Starting (launched with the flag off), a
`ScopedTorLaunchPreventerForTest` is then constructed, the crash clears
`is_starting_`, and the following `LaunchTorProcess` with a non-empty config
returns at the prevention check, leaving `is_starting_` false and requesting
nothing. -/
theorem crash_while_starting_relaunch_prevented :
    startingSample.is_starting_ = true ∧ startingSample.tor_pid_ = -1 ∧
    pathOps.empty sampleConfig = false ∧
    (OnTorCrashed startingSample 4321).1.is_starting_ = false ∧
    (LaunchTorProcess pathOps (ScopedTorLaunchPreventerForTest.enter false)
      (OnTorCrashed startingSample 4321).1 sampleConfig).1.is_starting_ = false ∧
    (LaunchTorProcess pathOps (ScopedTorLaunchPreventerForTest.enter false)
      (OnTorCrashed startingSample 4321).1 sampleConfig).2 = [] := by
  decide

/-- C4, amended: with launch prevention off, for every Starting state
(`is_starting_ = true`, `tor_pid_ = -1`), after `OnTorCrashed(pid)` for any pid
and after `OnTorLauncherCrashed`, `is_starting_` is false, and an immediately
following `LaunchTorProcess` with a non-empty config is accepted: it sets
`is_starting_`, stores the config and requests `control_->Start` once. -/
theorem crash_while_starting_allows_relaunch (ops : TorConfigOps Cfg)
    (s : TorLauncherFactory Cfg) (config : Cfg) (pid : Int)
    (hs : s.is_starting_ = true) (hpid : s.tor_pid_ = -1)
    (hc : ops.empty config = false) :
    (OnTorCrashed s pid).1.is_starting_ = false ∧
    (OnTorLauncherCrashed s).1.is_starting_ = false ∧
    ∀ s1, s1 = (OnTorCrashed s pid).1 ∨ s1 = (OnTorLauncherCrashed s).1 →
      (LaunchTorProcess ops false s1 config).1.is_starting_ = true ∧
      (LaunchTorProcess ops false s1 config).1.config_ = config ∧
      (LaunchTorProcess ops false s1 config).2.countP Call.isControlStart = 1 := by
  refine ⟨rfl, rfl, fun s1 h1 => ?_⟩
  have hs1 : s1 = { s with is_starting_ := false } := by
    rcases h1 with h | h <;> exact h
  have h := LaunchTorProcess_accepted ops s1 config (by simp [hs1])
    (by simp [hs1, hpid]) hc
  exact ⟨by simp [h.1], by simp [h.1], h.2⟩

/-- The statement of the amended C4 at the Starting factory reached from the
constructor by one accepted launch. -/
theorem crash_while_starting_allows_relaunch_witness :
    (startingSample.is_starting_ = true ∧ startingSample.tor_pid_ = -1 ∧
      pathOps.empty sampleConfig = false) ∧
    (LaunchTorProcess pathOps false
      (OnTorCrashed startingSample 4321).1 sampleConfig).1.is_starting_ = true :=
  ⟨by decide,
   ((crash_while_starting_allows_relaunch pathOps startingSample sampleConfig 4321
      (by decide) (by decide) (by decide)).2.2 _ (Or.inl rfl)).1⟩

/-- C5 (the code at a crash while Running): on the Running factory
(`tor_pid_ = 4321`) both crash signals clear `is_starting_` but keep
`tor_pid_ = 4321`, and the following `LaunchTorProcess` with a non-empty config
is rejected at the `tor_pid_ >= 0` check: no call is made, and `is_starting_`
is left set. -/
theorem crash_while_running_keeps_tor_pid :
    runningSample.is_starting_ = false ∧ runningSample.tor_pid_ = 4321 ∧
    (OnTorCrashed runningSample 4321).1.is_starting_ = false ∧
    (OnTorCrashed runningSample 4321).1.tor_pid_ = 4321 ∧
    (OnTorLauncherCrashed runningSample).1.tor_pid_ = 4321 ∧
    pathOps.empty sampleConfig = false ∧
    (LaunchTorProcess pathOps false
      (OnTorCrashed runningSample 4321).1 sampleConfig).2 = [] ∧
    (LaunchTorProcess pathOps false
      (OnTorLauncherCrashed runningSample).1 sampleConfig).2 = [] ∧
    (LaunchTorProcess pathOps false
      (OnTorCrashed runningSample 4321).1 sampleConfig).1 =
        { runningSample with is_starting_ := true } := by
  decide

/-- C6 (the code at a failed launch): on the Starting factory
`OnTorLaunched(false, -1)` notifies the observers and changes no member, so
`is_starting_` is still true, and the retry, `LaunchTorProcess` with a
non-empty config, is rejected at the `is_starting_` check without a call. -/
theorem failed_launch_keeps_is_starting :
    startingSample.is_starting_ = true ∧ startingSample.tor_pid_ = -1 ∧
    (OnTorLaunched startingSample false (-1)).1 = startingSample ∧
    (OnTorLaunched startingSample false (-1)).1.is_starting_ = true ∧
    pathOps.empty sampleConfig = false ∧
    LaunchTorProcess pathOps false (OnTorLaunched startingSample false (-1)).1 sampleConfig
      = (startingSample, []) := by
  decide

/-- C7 (the code at a kill while Starting): on the Starting factory
`KillTorProcess` sets `tor_pid_ = -1` and unbinds the launcher but leaves
`is_starting_` true, and the following `LaunchTorProcess` with a non-empty
config is rejected at the `is_starting_` check without a call. -/
theorem kill_while_starting_keeps_is_starting :
    startingSample.is_starting_ = true ∧ startingSample.tor_pid_ = -1 ∧
    (KillTorProcess startingSample).1.tor_pid_ = -1 ∧
    (KillTorProcess startingSample).1.is_starting_ = true ∧
    pathOps.empty sampleConfig = false ∧
    LaunchTorProcess pathOps false (KillTorProcess startingSample).1 sampleConfig
      = ((KillTorProcess startingSample).1, []) := by
  decide

/-- C8 as stated fails on the factory as constructed: it is Idle
(`is_starting_ = false`, `tor_pid_ = -1`) with `tor_launcher_` bound by
`Init`, and `KillTorProcess` resets `tor_launcher_`, so the state is not the
one before the call; the next accepted launch has to run `Init` again. -/
theorem KillTorProcess_idle_resets_launcher :
    idleSample.is_starting_ = false ∧ idleSample.tor_pid_ = -1 ∧
    idleSample.tor_launcher_ = true ∧
    (KillTorProcess idleSample).1.tor_launcher_ = false ∧
    (KillTorProcess idleSample).1 ≠ idleSample ∧
    (LaunchTorProcess pathOps false idleSample sampleConfig).2 ≠
      (LaunchTorProcess pathOps false (KillTorProcess idleSample).1 sampleConfig).2 := by
  decide

/-- C8, amended: for every state, `KillTorProcess` applied twice yields exactly
the state reached by applying it once; applied to an Idle state
(`is_starting_ = false`, `tor_pid_ = -1`) it notifies no observer and leaves
`is_starting_`, `tor_pid_`, `config_` and `observers_` unchanged, the one member
it changes being `tor_launcher_`, which it resets: the state is unchanged
exactly when `tor_launcher_` was already unset. -/
theorem KillTorProcess_idempotent (s : TorLauncherFactory Cfg)
    (hs : s.is_starting_ = false) (hpid : s.tor_pid_ = -1) :
    (∀ t : TorLauncherFactory Cfg,
      (KillTorProcess (KillTorProcess t).1).1 = (KillTorProcess t).1) ∧
    (KillTorProcess s).2.countP Call.isNotify = 0 ∧
    (KillTorProcess s).1 = { s with tor_launcher_ := false } ∧
    (KillTorProcess s).1.is_starting_ = false ∧
    (KillTorProcess s).1.tor_pid_ = -1 ∧
    ((KillTorProcess s).1 = s ↔ s.tor_launcher_ = false) := by
  have hk : (KillTorProcess s).1 = { s with tor_launcher_ := false } := by
    simp [KillTorProcess, hpid]
  refine ⟨fun t => rfl, by simp [KillTorProcess, Call.isNotify], hk, by simp [hk, hs],
    by simp [hk, hpid], ?_⟩
  rw [hk]
  constructor
  · intro h
    have := congrArg TorLauncherFactory.tor_launcher_ h
    simpa using this.symm
  · intro h
    cases s
    simp_all

/-- The statement of the amended C8 at the Idle factory left by a first
`KillTorProcess`. -/
theorem KillTorProcess_idempotent_witness :
    ((KillTorProcess idleSample).1.is_starting_ = false ∧
      (KillTorProcess idleSample).1.tor_pid_ = -1) ∧
    (KillTorProcess (KillTorProcess idleSample).1).1 = (KillTorProcess idleSample).1 :=
  ⟨by decide,
   (KillTorProcess_idempotent (KillTorProcess idleSample).1 (by decide) (by decide)).1
      idleSample⟩

/-! ## `std::string::find` and `substr` -/

/-- `findFirst` returns the lowest position at which the pattern occurs. -/
theorem findFirst_eq_some_iff (pat : List Char) (s : List Char) (k : Nat) :
    findFirst pat s = some k ↔
      k ≤ s.length ∧ pat <+: s.drop k ∧ ∀ j, j < k → ¬ pat <+: s.drop j := by
  induction s generalizing k with
  | nil =>
    cases pat with
    | nil =>
      simp only [findFirst, List.isEmpty_nil, if_true, Option.some.injEq, List.length_nil,
        Nat.le_zero_eq, List.drop_nil, List.nil_prefix, true_and, not_true_eq_false, imp_false,
        Nat.not_lt]
      constructor
      · rintro rfl; exact ⟨rfl, fun j => Nat.zero_le j⟩
      · intro h; exact h.1.symm
    | cons p ps => simp [findFirst]
  | cons c cs ih =>
    by_cases hp : pat.isPrefixOf (c :: cs) = true
    · have hp' : pat <+: c :: cs := List.isPrefixOf_iff_prefix.mp hp
      simp only [findFirst, hp, if_true, Option.some.injEq]
      constructor
      · rintro rfl
        exact ⟨Nat.zero_le _, by simpa using hp', fun j hj => absurd hj (Nat.not_lt_zero j)⟩
      · rintro ⟨_, _, hmin⟩
        by_contra hk
        exact hmin 0 (Nat.pos_of_ne_zero (Ne.symm hk)) (by simpa using hp')
    · have hp' : ¬ pat <+: c :: cs := fun h => hp (List.isPrefixOf_iff_prefix.mpr h)
      simp only [findFirst, hp, Bool.false_eq_true, if_false, Option.map_eq_some']
      constructor
      · rintro ⟨k', hk', rfl⟩
        obtain ⟨h1, h2, h3⟩ := (ih k').mp hk'
        refine ⟨by simpa using h1, by simpa using h2, fun j hj => ?_⟩
        cases j with
        | zero => simpa using hp'
        | succ j => simpa using h3 j (by omega)
      · rintro ⟨h1, h2, h3⟩
        cases k with
        | zero => exact absurd (by simpa using h2) hp'
        | succ k' =>
          refine ⟨k', (ih k').mpr ⟨by simpa using h1, by simpa using h2, fun j hj => ?_⟩, rfl⟩
          simpa using h3 (j + 1) (by omega)

/-- A pattern occurs somewhere in `s` exactly when `findFirst` finds it. -/
theorem findFirst_isSome_iff (pat s : List Char) :
    (∃ k, findFirst pat s = some k) ↔ pat <:+: s := by
  constructor
  · rintro ⟨k, hk⟩
    obtain ⟨_, ⟨t, ht⟩, _⟩ := (findFirst_eq_some_iff pat s k).mp hk
    exact ⟨s.take k, t, by rw [List.append_assoc, ht, List.take_append_drop]⟩
  · rintro ⟨a, b, hab⟩
    have hex : ∃ k, k ≤ s.length ∧ pat <+: s.drop k := by
      refine ⟨a.length, ?_, b, ?_⟩
      · rw [← hab]; simp
      · rw [← hab, List.append_assoc, List.drop_left]
    classical
    refine ⟨Nat.find hex, (findFirst_eq_some_iff pat s _).mpr
      ⟨(Nat.find_spec hex).1, (Nat.find_spec hex).2, fun j hj hpj => ?_⟩⟩
    have hjle : j ≤ s.length := le_trans (le_of_lt hj) (Nat.find_spec hex).1
    exact Nat.find_min hex hj ⟨hjle, hpj⟩

/-- `findFirst` fails exactly on the strings without the pattern. -/
theorem findFirst_eq_none_iff (pat s : List Char) :
    findFirst pat s = none ↔ ¬ pat <:+: s := by
  rw [← findFirst_isSome_iff]
  cases findFirst pat s <;> simp

/-- `find` does not return `npos` on a string shorter than `npos` that has the pattern. -/
theorem find_ne_npos_iff (pat s : List Char) (hs : s.length < npos) :
    find s pat ≠ npos ↔ pat <:+: s := by
  rw [← findFirst_isSome_iff]
  unfold find
  cases h : findFirst pat s with
  | none => simp
  | some k =>
    have := ((findFirst_eq_some_iff pat s k).mp h).1
    simp only [Option.getD_some, ne_eq, Option.some.injEq, exists_eq', iff_true]
    omega

/-- `find` returns the position of the first occurrence. -/
theorem find_eq_of_first (pat s : List Char) (k : Nat) (hk : k ≤ s.length)
    (hocc : pat <+: s.drop k) (hmin : ∀ j, j < k → ¬ pat <+: s.drop j) :
    find s pat = k := by
  unfold find
  rw [(findFirst_eq_some_iff pat s k).mpr ⟨hk, hocc, hmin⟩]
  rfl

/-- No one-character pattern `[x]` occurs inside a run of characters other than `x`. -/
theorem no_char_in_run (x : Char) (a b : List Char) (ha : ∀ c ∈ a, c ≠ x) (j : Nat)
    (hj : j < a.length) : ¬ [x] <+: (a ++ b).drop j := by
  induction a generalizing j with
  | nil => simp at hj
  | cons y ys ih =>
    cases j with
    | zero =>
      simp only [List.drop_zero, List.cons_append, List.cons_prefix_cons, List.nil_prefix,
        and_true]
      exact fun h => ha y (List.mem_cons_self _ _) h.symm
    | succ j =>
      simp only [List.cons_append, List.drop_succ_cons]
      exact ih (fun c hc => ha c (List.mem_cons_of_mem _ hc)) j (by simpa using hj)

/-- A decimal digit is not a space. -/
theorem isDigit_ne_space (c : Char) (h : c.isDigit = true) : c ≠ ' ' := by
  rintro rfl
  exact absurd h (by decide)

/-- `size_t` addition does not wrap below `2 ^ 64`. -/
theorem size_add_small (a b : Nat) (h : a + b < 2 ^ 64) : size_add a b = a + b := by
  unfold size_add; exact Nat.mod_eq_of_lt h

/-- `size_t` subtraction does not wrap when the result is not negative. -/
theorem size_sub_small (a b : Nat) (hb : b ≤ a) (ha : a < 2 ^ 64) : size_sub a b = a - b := by
  unfold size_sub
  have hb' : b % 2 ^ 64 = b := Nat.mod_eq_of_lt (by omega)
  rw [hb']
  omega

/-! ## `OnTorEvent` on bootstrap lines -/

/-- On a `STATUS_CLIENT` line with `BOOTSTRAP` whose first `PROGRESS=` is
followed by the digits `d` and a space, every observer is told
`NotifyTorInitializing(d)`, in registration order, and nothing else happens. -/
theorem OnTorEvent_bootstrap (s : TorLauncherFactory Cfg) (pre d rest : List Char)
    (hsize : (pre ++ ("PROGRESS=".toList ++ (d ++ ' ' :: rest))).length < npos)
    (hboot : "BOOTSTRAP".toList <:+: pre ++ ("PROGRESS=".toList ++ (d ++ ' ' :: rest)))
    (hfirst : ∀ j, j < pre.length →
      ¬ "PROGRESS=".toList <+: (pre ++ ("PROGRESS=".toList ++ (d ++ ' ' :: rest))).drop j)
    (hd : ∀ c ∈ d, c.isDigit = true) :
    OnTorEvent s TorControlEvent.STATUS_CLIENT
        (pre ++ ("PROGRESS=".toList ++ (d ++ ' ' :: rest))) =
      some (notifyAll s.observers_ (Notification.NotifyTorInitializing d)) := by
  have hP : "PROGRESS=".toList.length = 9 := by decide
  have hnpos : npos = 2 ^ 64 - 1 := rfl
  have hlen : (pre ++ ("PROGRESS=".toList ++ (d ++ ' ' :: rest))).length
      = pre.length + (9 + (d.length + (rest.length + 1))) := by
    simp only [List.length_append, List.length_cons, hP]
  rw [hlen] at hsize
  have hb : find (pre ++ ("PROGRESS=".toList ++ (d ++ ' ' :: rest))) "BOOTSTRAP".toList
      ≠ npos := (find_ne_npos_iff _ _ (by rw [hlen]; exact hsize)).mpr hboot
  have hstart : find (pre ++ ("PROGRESS=".toList ++ (d ++ ' ' :: rest))) "PROGRESS=".toList
      = pre.length :=
    find_eq_of_first _ _ _ (by simp) (by rw [List.drop_left]; exact List.prefix_append _ _)
      hfirst
  have htail : substr (pre ++ ("PROGRESS=".toList ++ (d ++ ' ' :: rest))) pre.length npos
      = some ("PROGRESS=".toList ++ (d ++ ' ' :: rest)) := by
    unfold substr
    rw [if_neg (by rw [hlen]; omega), List.drop_left, List.take_of_length_le]
    simp [hP]; omega
  have hsp : find ("PROGRESS=".toList ++ (d ++ ' ' :: rest)) " ".toList = 9 + d.length := by
    have hlit : ∀ c ∈ "PROGRESS=".toList, c ≠ ' ' := by decide
    have hrun : ∀ c ∈ "PROGRESS=".toList ++ d, c ≠ ' ' := by
      intro c hc
      rcases List.mem_append.mp hc with h | h
      · exact hlit c h
      · exact isDigit_ne_space c (hd c h)
    have hassoc : "PROGRESS=".toList ++ (d ++ ' ' :: rest)
        = ("PROGRESS=".toList ++ d) ++ ' ' :: rest := by simp
    have hk : ("PROGRESS=".toList ++ d).length = 9 + d.length := by
      simp only [List.length_append, hP]
    rw [hassoc, ← hk]
    refine find_eq_of_first _ _ _ (by simp) ?_ (fun j hj => no_char_in_run ' ' _ _ hrun j hj)
    rw [List.drop_left]
    exact ⟨rest, rfl⟩
  have hperc : substr (pre ++ ("PROGRESS=".toList ++ (d ++ ' ' :: rest)))
      (size_add pre.length (strlen "PROGRESS=".toList))
      (size_sub (9 + d.length) (strlen "PROGRESS=".toList)) = some d := by
    have h1 : size_add pre.length (strlen "PROGRESS=".toList) = pre.length + 9 := by
      unfold strlen; rw [hP]; exact size_add_small _ _ (by omega)
    have h2 : size_sub (9 + d.length) (strlen "PROGRESS=".toList) = d.length := by
      unfold strlen; rw [hP, size_sub_small _ _ (by omega) (by omega)]; omega
    have hdrop : (pre ++ ("PROGRESS=".toList ++ (d ++ ' ' :: rest))).drop (pre.length + 9)
        = d ++ ' ' :: rest := by
      rw [← List.drop_drop, List.drop_left, ← hP, List.drop_left]
    unfold substr
    rw [h1, h2, if_neg (by rw [hlen]; omega), hdrop, List.take_left]
  simp only [OnTorEvent, if_true, hb, ne_eq, not_false_eq_true, hstart, htail, hsp, hperc]

/-- C9: for every `STATUS_CLIENT` line (a `std::string`, so shorter than
`npos`) that contains `BOOTSTRAP` and in which the first occurrence of
`PROGRESS=` is followed by a run of decimal digits `d` and then a space,
`OnTorEvent` returns normally and its calls are exactly one
`NotifyTorInitializing(d)` per registered observer, in registration order; for
the line `NOTICE BOOTSTRAP PROGRESS=42 SUMMARY=...` the reported progress is
`42`. -/
theorem OnTorEvent_bootstrap_progress (s : TorLauncherFactory Cfg) (pre d rest : List Char)
    (hsize : (pre ++ ("PROGRESS=".toList ++ (d ++ ' ' :: rest))).length < npos)
    (hboot : "BOOTSTRAP".toList <:+: pre ++ ("PROGRESS=".toList ++ (d ++ ' ' :: rest)))
    (hfirst : ∀ j, j < pre.length →
      ¬ "PROGRESS=".toList <+: (pre ++ ("PROGRESS=".toList ++ (d ++ ' ' :: rest))).drop j)
    (hd : ∀ c ∈ d, c.isDigit = true) :
    OnTorEvent s TorControlEvent.STATUS_CLIENT
        (pre ++ ("PROGRESS=".toList ++ (d ++ ' ' :: rest))) =
      some (s.observers_.map fun o =>
        Call.notify o (Notification.NotifyTorInitializing d)) ∧
    OnTorEvent s TorControlEvent.STATUS_CLIENT
        "NOTICE BOOTSTRAP PROGRESS=42 SUMMARY=...".toList =
      some (s.observers_.map fun o =>
        Call.notify o (Notification.NotifyTorInitializing "42".toList)) :=
  ⟨OnTorEvent_bootstrap s pre d rest hsize hboot hfirst hd,
   OnTorEvent_bootstrap s "NOTICE BOOTSTRAP ".toList "42".toList "SUMMARY=...".toList
     (by decide) ⟨"NOTICE ".toList, " PROGRESS=42 SUMMARY=...".toList, by decide⟩
     (by decide) (by decide)⟩

/-- The statement of C9 at the line `BOOTSTRAP PROGRESS=100 TAG=done` with
observers 1 and 2. -/
theorem OnTorEvent_bootstrap_progress_witness :
    OnTorEvent idleSample TorControlEvent.STATUS_CLIENT
        "BOOTSTRAP PROGRESS=100 TAG=done".toList =
      some [Call.notify 1 (Notification.NotifyTorInitializing "100".toList),
            Call.notify 2 (Notification.NotifyTorInitializing "100".toList)] :=
  (OnTorEvent_bootstrap_progress idleSample "BOOTSTRAP ".toList "100".toList
     "TAG=done".toList (by decide) ⟨[], " PROGRESS=100 TAG=done".toList, by decide⟩
     (by decide) (by decide)).1

/-- C10 (the code on a bootstrap line without `PROGRESS=`): on the
`STATUS_CLIENT` line `NOTICE BOOTSTRAP`, `find` returns `npos` for
`PROGRESS=`, and `initial.substr(npos)` is out of range for the 16-character
line: `OnTorEvent` does not return normally. -/
theorem OnTorEvent_bootstrap_without_progress_throws :
    "BOOTSTRAP".toList <:+: "NOTICE BOOTSTRAP".toList ∧
    ¬ "PROGRESS=".toList <:+: "NOTICE BOOTSTRAP".toList ∧
    find "NOTICE BOOTSTRAP".toList "PROGRESS=".toList = npos ∧
    "NOTICE BOOTSTRAP".toList.length = 16 ∧
    substr "NOTICE BOOTSTRAP".toList npos npos = none ∧
    OnTorEvent idleSample TorControlEvent.STATUS_CLIENT "NOTICE BOOTSTRAP".toList = none := by
  refine ⟨⟨"NOTICE ".toList, [], by decide⟩, ?_, by decide, by decide, by decide, by decide⟩
  rw [← findFirst_eq_none_iff]
  decide

/-- A string without spaces has no occurrence of the one-character pattern
`" "`, so `find` returns `npos` on it. -/
theorem find_space_eq_npos (t : List Char) (ht : ∀ c ∈ t, c ≠ ' ') :
    find t " ".toList = npos := by
  have hnone : findFirst " ".toList t = none := by
    rw [findFirst_eq_none_iff]
    intro hin
    exact ht ' ' (hin.subset (by decide)) rfl
  unfold find
  rw [hnone]
  rfl

/-- On a `STATUS_CLIENT` line with `BOOTSTRAP`, whatever stands between the
first `PROGRESS=` and the next space, or the end of the line when no space
follows, is handed to every observer as it stands. -/
theorem OnTorEvent_bootstrap_payload (s : TorLauncherFactory Cfg)
    (pre payload rest : List Char)
    (hsize : (pre ++ ("PROGRESS=".toList ++ (payload ++ rest))).length < npos)
    (hboot : "BOOTSTRAP".toList <:+: pre ++ ("PROGRESS=".toList ++ (payload ++ rest)))
    (hfirst : ∀ j, j < pre.length →
      ¬ "PROGRESS=".toList <+: (pre ++ ("PROGRESS=".toList ++ (payload ++ rest))).drop j)
    (hpay : ∀ c ∈ payload, c ≠ ' ')
    (hrest : rest = [] ∨ ∃ r, rest = ' ' :: r) :
    OnTorEvent s TorControlEvent.STATUS_CLIENT
        (pre ++ ("PROGRESS=".toList ++ (payload ++ rest))) =
      some (notifyAll s.observers_ (Notification.NotifyTorInitializing payload)) := by
  have hP : "PROGRESS=".toList.length = 9 := by decide
  have hnpos : npos = 2 ^ 64 - 1 := rfl
  have hlit : ∀ c ∈ "PROGRESS=".toList, c ≠ ' ' := by decide
  have hrun : ∀ c ∈ "PROGRESS=".toList ++ payload, c ≠ ' ' := by
    intro c hc
    rcases List.mem_append.mp hc with h | h
    · exact hlit c h
    · exact hpay c h
  have hlen : (pre ++ ("PROGRESS=".toList ++ (payload ++ rest))).length
      = pre.length + (9 + (payload.length + rest.length)) := by
    simp only [List.length_append, hP]
  rw [hlen] at hsize
  have hb : find (pre ++ ("PROGRESS=".toList ++ (payload ++ rest))) "BOOTSTRAP".toList
      ≠ npos := (find_ne_npos_iff _ _ (by rw [hlen]; exact hsize)).mpr hboot
  have hstart : find (pre ++ ("PROGRESS=".toList ++ (payload ++ rest))) "PROGRESS=".toList
      = pre.length :=
    find_eq_of_first _ _ _ (by simp) (by rw [List.drop_left]; exact List.prefix_append _ _)
      hfirst
  have htail : substr (pre ++ ("PROGRESS=".toList ++ (payload ++ rest))) pre.length npos
      = some ("PROGRESS=".toList ++ (payload ++ rest)) := by
    unfold substr
    rw [if_neg (by rw [hlen]; omega), List.drop_left, List.take_of_length_le]
    simp only [List.length_append, hP]; omega
  have h1 : size_add pre.length (strlen "PROGRESS=".toList) = pre.length + 9 := by
    unfold strlen; rw [hP]; exact size_add_small _ _ (by omega)
  have hdrop : (pre ++ ("PROGRESS=".toList ++ (payload ++ rest))).drop (pre.length + 9)
      = payload ++ rest := by
    rw [← List.drop_drop, List.drop_left, ← hP, List.drop_left]
  have hperc : ∀ n, payload.length ≤ n → (rest = [] ∨ n = payload.length) →
      substr (pre ++ ("PROGRESS=".toList ++ (payload ++ rest)))
        (size_add pre.length (strlen "PROGRESS=".toList)) n = some payload := by
    intro n hn hcase
    unfold substr
    rw [h1, if_neg (by rw [hlen]; omega), hdrop]
    rcases hcase with h | h
    · subst h
      rw [List.append_nil, List.take_of_length_le hn]
    · rw [h, List.take_left]
  rcases hrest with hnil | ⟨r, hr⟩
  · have hsp : find ("PROGRESS=".toList ++ (payload ++ rest)) " ".toList = npos := by
      rw [hnil, List.append_nil]
      exact find_space_eq_npos _ hrun
    have h2 : size_sub npos (strlen "PROGRESS=".toList) = 2 ^ 64 - 10 := by
      unfold strlen; rw [hP]; decide
    have h3 := hperc (2 ^ 64 - 10) (by omega) (Or.inl hnil)
    simp only [OnTorEvent, if_true, hb, ne_eq, not_false_eq_true, hstart, htail, hsp, h2, h3]
  · have hsp : find ("PROGRESS=".toList ++ (payload ++ rest)) " ".toList
        = 9 + payload.length := by
      have hassoc : "PROGRESS=".toList ++ (payload ++ rest)
          = ("PROGRESS=".toList ++ payload) ++ ' ' :: r := by rw [hr]; simp
      have hk : ("PROGRESS=".toList ++ payload).length = 9 + payload.length := by
        simp only [List.length_append, hP]
      rw [hassoc, ← hk]
      refine find_eq_of_first _ _ _ (by simp) ?_
        (fun j hj => no_char_in_run ' ' _ _ hrun j hj)
      rw [List.drop_left]
      exact ⟨r, rfl⟩
    have h2 : size_sub (9 + payload.length) (strlen "PROGRESS=".toList)
        = payload.length := by
      unfold strlen; rw [hP, size_sub_small _ _ (by omega) (by omega)]; omega
    have h3 := hperc payload.length (le_refl _) (Or.inr rfl)
    simp only [OnTorEvent, if_true, hb, ne_eq, not_false_eq_true, hstart, htail, hsp, h2, h3]

/-- C11 as stated fails: `OnTorEvent` does not validate the payload. On the
`STATUS_CLIENT` `BOOTSTRAP` lines with the payloads `abc` (non-numeric), `250`
(out of range) and the empty payload, both observers are told
`NotifyTorInitializing` with the payload text. -/
theorem OnTorEvent_bootstrap_forwards_malformed_payload :
    OnTorEvent idleSample TorControlEvent.STATUS_CLIENT
        "NOTICE BOOTSTRAP PROGRESS=abc SUMMARY".toList =
      some [Call.notify 1 (Notification.NotifyTorInitializing "abc".toList),
            Call.notify 2 (Notification.NotifyTorInitializing "abc".toList)] ∧
    OnTorEvent idleSample TorControlEvent.STATUS_CLIENT
        "NOTICE BOOTSTRAP PROGRESS=250 SUMMARY".toList =
      some [Call.notify 1 (Notification.NotifyTorInitializing "250".toList),
            Call.notify 2 (Notification.NotifyTorInitializing "250".toList)] ∧
    OnTorEvent idleSample TorControlEvent.STATUS_CLIENT
        "NOTICE BOOTSTRAP PROGRESS= SUMMARY".toList =
      some [Call.notify 1 (Notification.NotifyTorInitializing []),
            Call.notify 2 (Notification.NotifyTorInitializing [])] := by
  decide

/-- C11, amended: for every `STATUS_CLIENT` line (a `std::string`, so shorter
than `npos`) that contains `BOOTSTRAP`, the payload between the first
`PROGRESS=` and the next space, or the end of the line, is not checked: whether
or not it is a decimal integer in 0..100, `OnTorEvent` returns normally and
delivers exactly one `NotifyTorInitializing(payload)` per registered observer,
so as many initializing notifications as there are observers. -/
theorem OnTorEvent_bootstrap_payload_delivered (s : TorLauncherFactory Cfg)
    (pre payload rest : List Char)
    (hsize : (pre ++ ("PROGRESS=".toList ++ (payload ++ rest))).length < npos)
    (hboot : "BOOTSTRAP".toList <:+: pre ++ ("PROGRESS=".toList ++ (payload ++ rest)))
    (hfirst : ∀ j, j < pre.length →
      ¬ "PROGRESS=".toList <+: (pre ++ ("PROGRESS=".toList ++ (payload ++ rest))).drop j)
    (hpay : ∀ c ∈ payload, c ≠ ' ')
    (hrest : rest = [] ∨ ∃ r, rest = ' ' :: r) :
    OnTorEvent s TorControlEvent.STATUS_CLIENT
        (pre ++ ("PROGRESS=".toList ++ (payload ++ rest))) =
      some (s.observers_.map fun o =>
        Call.notify o (Notification.NotifyTorInitializing payload)) ∧
    ∃ calls, OnTorEvent s TorControlEvent.STATUS_CLIENT
        (pre ++ ("PROGRESS=".toList ++ (payload ++ rest))) = some calls ∧
      calls.countP Call.isNotify = s.observers_.length := by
  have h := OnTorEvent_bootstrap_payload s pre payload rest hsize hboot hfirst hpay hrest
  refine ⟨h, _, h, ?_⟩
  unfold notifyAll
  rw [List.countP_map]
  exact List.countP_eq_length.mpr (fun _ _ => rfl)

/-- The statement of the amended C11 at the line `BOOTSTRAP PROGRESS=n/a`,
whose payload runs to the end of the line, with observers 1 and 2. -/
theorem OnTorEvent_bootstrap_payload_delivered_witness :
    OnTorEvent idleSample TorControlEvent.STATUS_CLIENT "BOOTSTRAP PROGRESS=n/a".toList =
      some [Call.notify 1 (Notification.NotifyTorInitializing "n/a".toList),
            Call.notify 2 (Notification.NotifyTorInitializing "n/a".toList)] :=
  (OnTorEvent_bootstrap_payload_delivered idleSample "BOOTSTRAP ".toList "n/a".toList []
     (by decide) ⟨[], " PROGRESS=n/a".toList, by decide⟩ (by decide) (by decide)
     (Or.inl rfl)).1

/-! ## `OnTorEvent` on circuit lines and on other events -/

/-- `CIRCUIT_ESTABLISHED` does not occur in `CIRCUIT_NOT_ESTABLISHED`, and
`BOOTSTRAP` does not either. -/
theorem circuit_tokens_apart :
    ¬ "CIRCUIT_ESTABLISHED".toList <:+: "CIRCUIT_NOT_ESTABLISHED".toList ∧
    ¬ "BOOTSTRAP".toList <:+: "CIRCUIT_NOT_ESTABLISHED".toList :=
  ⟨(findFirst_eq_none_iff _ _).mp (by decide), (findFirst_eq_none_iff _ _).mp (by decide)⟩

/-- `OnTorEvent` on a `STATUS_CLIENT` line without `BOOTSTRAP`: the two circuit
tests, in the order of the source. -/
theorem OnTorEvent_no_bootstrap (s : TorLauncherFactory Cfg) (initial : List Char)
    (hsize : initial.length < npos) (hnb : ¬ "BOOTSTRAP".toList <:+: initial) :
    OnTorEvent s TorControlEvent.STATUS_CLIENT initial =
      if find initial "CIRCUIT_ESTABLISHED".toList ≠ npos then
        some (notifyAll s.observers_ (Notification.NotifyTorCircuitEstablished true))
      else if find initial "CIRCUIT_NOT_ESTABLISHED".toList ≠ npos then
        some (notifyAll s.observers_ (Notification.NotifyTorCircuitEstablished false))
      else some [] := by
  have hb : ¬ find initial "BOOTSTRAP".toList ≠ npos :=
    fun h => hnb ((find_ne_npos_iff _ _ hsize).mp h)
  simp only [OnTorEvent, if_true, if_neg hb]

/-- C12: for every `STATUS_CLIENT` line (a `std::string`, so shorter than
`npos`) that does not contain `BOOTSTRAP`: if it contains `CIRCUIT_ESTABLISHED`
every observer is notified exactly once with `NotifyTorCircuitEstablished(true)`;
if it does not but contains `CIRCUIT_NOT_ESTABLISHED`, exactly once with
`NotifyTorCircuitEstablished(false)`; if it contains neither, nothing is
notified. `CIRCUIT_ESTABLISHED` is not a substring of
`CIRCUIT_NOT_ESTABLISHED`, and the line `CIRCUIT_NOT_ESTABLISHED` is reported
as false. For every event class other than `STATUS_CLIENT` and every line
nothing is notified. -/
theorem OnTorEvent_circuit_established (s : TorLauncherFactory Cfg) (initial : List Char)
    (hsize : initial.length < npos) (hnb : ¬ "BOOTSTRAP".toList <:+: initial) :
    ("CIRCUIT_ESTABLISHED".toList <:+: initial →
      OnTorEvent s TorControlEvent.STATUS_CLIENT initial =
        some (s.observers_.map fun o =>
          Call.notify o (Notification.NotifyTorCircuitEstablished true))) ∧
    (¬ "CIRCUIT_ESTABLISHED".toList <:+: initial →
      "CIRCUIT_NOT_ESTABLISHED".toList <:+: initial →
      OnTorEvent s TorControlEvent.STATUS_CLIENT initial =
        some (s.observers_.map fun o =>
          Call.notify o (Notification.NotifyTorCircuitEstablished false))) ∧
    (¬ "CIRCUIT_ESTABLISHED".toList <:+: initial →
      ¬ "CIRCUIT_NOT_ESTABLISHED".toList <:+: initial →
      OnTorEvent s TorControlEvent.STATUS_CLIENT initial = some []) ∧
    ¬ "CIRCUIT_ESTABLISHED".toList <:+: "CIRCUIT_NOT_ESTABLISHED".toList ∧
    OnTorEvent s TorControlEvent.STATUS_CLIENT "CIRCUIT_NOT_ESTABLISHED".toList =
      some (s.observers_.map fun o =>
        Call.notify o (Notification.NotifyTorCircuitEstablished false)) ∧
    ∀ (event : TorControlEvent) (line : List Char),
      event ≠ TorControlEvent.STATUS_CLIENT → OnTorEvent s event line = some [] := by
  have key := OnTorEvent_no_bootstrap s initial hsize hnb
  have hce := find_ne_npos_iff "CIRCUIT_ESTABLISHED".toList initial hsize
  have hcne := find_ne_npos_iff "CIRCUIT_NOT_ESTABLISHED".toList initial hsize
  refine ⟨fun h => ?_, fun h1 h2 => ?_, fun h1 h2 => ?_, circuit_tokens_apart.1, ?_,
    fun event line he => ?_⟩
  · rw [key, if_pos (hce.mpr h)]; rfl
  · rw [key, if_neg (fun h => h1 (hce.mp h)), if_pos (hcne.mpr h2)]; rfl
  · rw [key, if_neg (fun h => h1 (hce.mp h)), if_neg (fun h => h2 (hcne.mp h))]
  · have hlit := OnTorEvent_no_bootstrap s "CIRCUIT_NOT_ESTABLISHED".toList (by decide)
      circuit_tokens_apart.2
    rw [hlit, if_neg (by decide), if_pos (by decide)]; rfl
  · simp only [OnTorEvent, if_neg he]

/-- The statement of C12 at the line `NOTICE CIRCUIT_ESTABLISHED` with
observers 1 and 2. -/
theorem OnTorEvent_circuit_established_witness :
    OnTorEvent idleSample TorControlEvent.STATUS_CLIENT
        "NOTICE CIRCUIT_ESTABLISHED".toList =
      some [Call.notify 1 (Notification.NotifyTorCircuitEstablished true),
            Call.notify 2 (Notification.NotifyTorCircuitEstablished true)] :=
  (OnTorEvent_circuit_established idleSample "NOTICE CIRCUIT_ESTABLISHED".toList
     (by decide) ((findFirst_eq_none_iff _ _).mp (by decide))).1
    ⟨"NOTICE ".toList, [], by decide⟩

/-! ## `GotSOCKSListeners` -/

/-- C13: for every non-empty listener list with `error = false`,
`GotSOCKSListeners` returns normally and notifies every registered observer
exactly once, in registration order, with the proxy URI `socks5://` followed by
the first listener with every double-quote character removed and the other
characters kept in order; the URI contains no double quote and is the same
whatever the second and later listeners are. For the raw listener
`"127.0.0.1:9050"` (quotes included) the URI is `socks5://127.0.0.1:9050`. -/
theorem GotSOCKSListeners_proxy_uri (s : TorLauncherFactory Cfg) (first : List Char)
    (others : List (List Char)) :
    GotSOCKSListeners s false (first :: others) =
      some (s.observers_.map fun o => Call.notify o (Notification.NotifyTorNewProxyURI
        ("socks5://".toList ++ first.filter fun c => c != kQuote))) ∧
    kQuote ∉ "socks5://".toList ++ first.filter (fun c => c != kQuote) ∧
    (∀ others2 : List (List Char),
      GotSOCKSListeners s false (first :: others2) =
        GotSOCKSListeners s false (first :: others)) ∧
    GotSOCKSListeners s false [kQuote :: ("127.0.0.1:9050".toList ++ [kQuote])] =
      some (s.observers_.map fun o => Call.notify o (Notification.NotifyTorNewProxyURI
        "socks5://127.0.0.1:9050".toList)) := by
  have hscheme : kTorProxyScheme.filter (fun c => c != kQuote) = "socks5://".toList := by
    decide
  have hgen : ∀ (f : List Char) (os : List (List Char)),
      GotSOCKSListeners s false (f :: os) =
        some (s.observers_.map fun o => Call.notify o (Notification.NotifyTorNewProxyURI
          ("socks5://".toList ++ f.filter fun c => c != kQuote))) := by
    intro f os
    simp only [GotSOCKSListeners, Bool.false_eq_true, if_false, List.getElem?_cons_zero,
      erase_remove, List.filter_append, hscheme, notifyAll]
  refine ⟨hgen first others, ?_, fun o2 => by rw [hgen, hgen], ?_⟩
  · intro hmem
    rcases List.mem_append.mp hmem with h | h
    · exact absurd h (by decide)
    · have := (List.mem_filter.mp h).2
      simp at this
  · rw [hgen]
    have : (kQuote :: ("127.0.0.1:9050".toList ++ [kQuote])).filter (fun c => c != kQuote)
        = "127.0.0.1:9050".toList := by decide
    rw [this]
    have h2 : "socks5://".toList ++ "127.0.0.1:9050".toList
        = "socks5://127.0.0.1:9050".toList := by decide
    rw [h2]

/-- C14 (the code on an empty listener list): with `error = false` and no
listener, `GotSOCKSListeners` still evaluates `listeners[0]`; the vector has
no element 0, so the read is outside the vector and the function does not
return normally. Only `error = true` skips the derivation. -/
theorem GotSOCKSListeners_empty_reads_first :
    ([] : List (List Char))[0]? = none ∧
    GotSOCKSListeners idleSample false [] = none ∧
    GotSOCKSListeners idleSample true [] = some [] := by
  decide

end Tor

/-! ## The SKU response checkers -/

namespace braveledger_response_util

open ledger

/-- C15: for every response, `CheckSendExternalTransaction` returns `LEDGER_OK`
exactly for status 201 (Created), `NOT_FOUND` exactly for status 404 and
`LEDGER_ERROR` for every other status; `CheckClaimSKUCreds` and
`CheckRedeemSKUTokens` return `LEDGER_OK` exactly for status 200 (OK) and
`LEDGER_ERROR` for every other status, so the two agree on every response. -/
theorem check_sku_responses (response : UrlResponse) :
    (CheckSendExternalTransaction response = Result.LEDGER_OK ↔
      response.status_code = 201) ∧
    (CheckSendExternalTransaction response = Result.NOT_FOUND ↔
      response.status_code = 404) ∧
    (CheckSendExternalTransaction response = Result.LEDGER_ERROR ↔
      response.status_code ≠ 201 ∧ response.status_code ≠ 404) ∧
    (CheckClaimSKUCreds response = Result.LEDGER_OK ↔ response.status_code = 200) ∧
    (CheckClaimSKUCreds response = Result.LEDGER_ERROR ↔ response.status_code ≠ 200) ∧
    (CheckRedeemSKUTokens response = Result.LEDGER_OK ↔ response.status_code = 200) ∧
    (CheckRedeemSKUTokens response = Result.LEDGER_ERROR ↔ response.status_code ≠ 200) ∧
    CheckClaimSKUCreds response = CheckRedeemSKUTokens response := by
  simp only [CheckSendExternalTransaction, CheckClaimSKUCreds, CheckRedeemSKUTokens,
    net.HTTP_OK, net.HTTP_CREATED, net.HTTP_BAD_REQUEST, net.HTTP_NOT_FOUND,
    net.HTTP_CONFLICT, net.HTTP_INTERNAL_SERVER_ERROR]
  refine ⟨?_, ?_, ?_, ?_, ?_, ?_, ?_, ?_⟩ <;> split_ifs <;> simp_all

end braveledger_response_util

/-! ## The SKU order creation flow -/

namespace braveledger_sku

open ledger

/-- C16: in the order creation flow the caller's callback gets a non-empty
order id only together with `LEDGER_OK`. `Create` on an empty item list calls
it with `(LEDGER_ERROR, "")` and sends no request; `OnCreate` with a result
other than `LEDGER_OK` calls it with `(LEDGER_ERROR, "")` and saves nothing,
whatever the order pointer; `OnCreateSave` with a result `r` other than
`LEDGER_OK` calls it with `(r, "")`, and with `LEDGER_OK` calls it with
`(LEDGER_OK, order_id)`. -/
theorem SKUOrder_callback_contract {Item : Type} (items : List Item) (result : Result)
    (order : Option SKUOrder) (order_id : List Char) :
    Create ([] : List Item) = [Action.callback Result.LEDGER_ERROR []] ∧
    (Create ([] : List Item)).countP Action.isRequest = 0 ∧
    (result ≠ Result.LEDGER_OK →
      OnCreate result order = some [(Action.callback Result.LEDGER_ERROR [] : Action Item)]) ∧
    (result ≠ Result.LEDGER_OK →
      OnCreateSave result order_id = [(Action.callback result [] : Action Item)]) ∧
    OnCreateSave Result.LEDGER_OK order_id =
      [(Action.callback Result.LEDGER_OK order_id : Action Item)] ∧
    ∀ (r : Result) (id : List Char),
      (Action.callback r id ∈ Create items ∨
        (∃ l : List (Action Item), OnCreate result order = some l ∧ Action.callback r id ∈ l) ∨
        (Action.callback r id : Action Item) ∈ OnCreateSave result order_id) →
      id ≠ [] → r = Result.LEDGER_OK := by
  refine ⟨rfl, rfl, fun h => by simp [OnCreate, h], fun h => by simp [OnCreateSave, h],
    by simp [OnCreateSave], ?_⟩
  intro r id hmem hid
  rcases hmem with h | ⟨l, hl, h⟩ | h
  · unfold Create at h
    split_ifs at h <;> simp_all
  · unfold OnCreate at hl
    split_ifs at hl
    · simp only [Option.some.injEq] at hl
      subst hl
      simp only [List.mem_singleton, Action.callback.injEq] at h
      exact absurd h.2 hid
    · cases order with
      | none => simp at hl
      | some o =>
        simp only [Option.some.injEq] at hl
        subst hl
        simp at h
  · unfold OnCreateSave at h
    split_ifs at h <;> simp_all

/-- The statement of C16 at the result `NOT_FOUND`: `OnCreate` and
`OnCreateSave` call back with an empty order id, and a save that succeeds
calls back with the order id. -/
theorem SKUOrder_callback_contract_witness :
    OnCreate Result.NOT_FOUND (some { order_id := "order-1".toList }) =
      some [(Action.callback Result.LEDGER_ERROR [] : Action Nat)] ∧
    OnCreateSave Result.NOT_FOUND "order-1".toList =
      [(Action.callback Result.NOT_FOUND [] : Action Nat)] ∧
    OnCreateSave Result.LEDGER_OK "order-1".toList =
      [(Action.callback Result.LEDGER_OK "order-1".toList : Action Nat)] :=
  ⟨(SKUOrder_callback_contract [1, 2] Result.NOT_FOUND (some { order_id := "order-1".toList })
      "order-1".toList).2.2.1 (by decide),
   (SKUOrder_callback_contract [1, 2] Result.NOT_FOUND (some { order_id := "order-1".toList })
      "order-1".toList).2.2.2.1 (by decide),
   (SKUOrder_callback_contract [1, 2] Result.NOT_FOUND (some { order_id := "order-1".toList })
      "order-1".toList).2.2.2.2.1⟩

end braveledger_sku
